import Mathlib

/-!
Shallow embedding of the layout-planning and execution-sequencing core of the
`architect` disk-preparation tool, together with theorems settling the frozen
claims about it.  Each definition mirrors a function of the Python source
(`architect/core/partition.py`, `architect/core/encryption.py`,
`architect/core/filesystem.py`, `architect/core/mount.py`,
`architect/utils/validation.py`, `architect/utils/command.py`,
`architect/utils/format.py`); deviations forced by the embedding (Python
floats, `uuid.uuid4`, ambient platform detection) are recorded in the doc
comment of the definition concerned.
-/

namespace Architect

/-! ## Generic helpers -/

/-- Association-list lookup, modelling Python dict indexing by string key
(first binding wins; the tables built by the source never duplicate keys). -/
def alookup {α : Type} : List (String × α) → String → Option α
  | [], _ => none
  | (k, v) :: rest, key => if k = key then some v else alookup rest key

/-- Association-list update, modelling Python dict assignment `d[k] = v`:
replace the binding in place if the key exists, else append a new binding
(insertion order preserved, as for Python dicts). -/
def aset {α : Type} (d : List (String × α)) (k : String) (v : α) : List (String × α) :=
  if (alookup d k).isSome then
    d.map (fun p => if p.1 = k then (k, v) else p)
  else d ++ [(k, v)]

/-- Boolean infix test on character lists. -/
def listIsInfixOf (p : List Char) : List Char → Bool
  | [] => p.isEmpty
  | c :: rest => p.isPrefixOf (c :: rest) || listIsInfixOf p rest

/-- Python substring membership `pat in s`. -/
def strContains (s pat : String) : Bool :=
  listIsInfixOf pat.toList s.toList

/-- ASCII lowercase of one character.  Python `str.lower()` is full Unicode,
but every string the source lowercases is a device path or a machine name,
which are ASCII. -/
def charToLower (c : Char) : Char :=
  if 65 ≤ c.toNat ∧ c.toNat ≤ 90 then Char.ofNat (c.toNat + 32) else c

/-- Python `s.lower()` (ASCII). -/
def strToLower (s : String) : String := ⟨s.toList.map charToLower⟩

/-- Python `s.startswith(pre)`. -/
def strStartsWith (s pre : String) : Bool := pre.toList.isPrefixOf s.toList

/-! ## Size specifications (`architect/utils/format.py`, `parse_size_spec`)

The Python function parses a string into either a percentage of the disk or an
absolute size with an optional unit, using float arithmetic and truncating
with `int()`.  The embedding classifies the parse outcome of the string
(`percent`, `sized`, or `invalid` for a string raising `ValueError`) and does
the arithmetic exactly: the decimal literal matched by the regex is kept as a
numerator over a power-of-ten denominator, and `int()` truncation toward zero
is `Int.tdiv`.  (Double rounding of the Python floats is not modelled; it is
exact for every value the claims exercise.) -/

inductive SizeSpec where
  /-- A string ending in a percent sign whose prefix parses as a float:
  the float is `num / den` with `den` a positive power of ten. -/
  | percent (num : ℤ) (den : ℕ)
  /-- A string matching the size regex: decimal value `num / den`
  (nonnegative) with the unit already resolved to a byte `multiplier`
  (1 for none or B, powers of 1024 or 1000 otherwise). -/
  | sized (num : ℕ) (den : ℕ) (multiplier : ℕ)
  /-- A string on which `parse_size_spec` raises `ValueError`. -/
  | invalid
deriving DecidableEq

/-- Mirrors `parse_size_spec(spec, disk_size_bytes)`; `.error` is the
`ValueError` the Python raises on an unparseable specification. -/
def parse_size_spec (spec : SizeSpec) (disk_size_bytes : ℤ) : Except Unit ℤ :=
  match spec with
  | .percent num den => .ok (Int.tdiv (disk_size_bytes * num) (100 * den))
  | .sized num den m => .ok (Int.tdiv ((num : ℤ) * m) den)
  | .invalid => .error ()

/-! ## Data model -/

/-- The `DiskInfo` record assembled by `architect/core/disk.py`. -/
structure DiskInfo where
  size_bytes : ℕ
  rotational : Bool
  nvme : Bool
  trim_supported : Bool
  cpu_count : ℕ
  model : String
deriving DecidableEq

/-- The command-line arguments consumed by the planning core.  Optional
string arguments are modelled as `Option`, with `none` covering both absence
and the empty string (both falsy in the Python truthiness tests the source
uses); `hardware_encryption` and `software_encryption` are the truthiness of
the corresponding argument values. -/
structure Args where
  overprovision : Option SizeSpec := none
  windows : Option SizeSpec := none
  hardware_encryption : Bool := false
  software_encryption : Bool := false
  hardware_encryption_psid : Option String := none
  hardware_encryption_admin : Option String := none
  hardware_encryption_pass : Option String := none
  target_arch : Option String := none
  hardened : Bool := false
  target : String := "/target"
deriving DecidableEq

/-- Outcome of the external commands `prepare_disk` issues through the
command runner: whether `wipefs` and `sfdisk` succeed.  In simulation mode
both always succeed; in real mode either may fail, which the source converts
to `PartitioningError`.  (`udevadm settle` failure is only logged and is not
modelled.) -/
structure ExecEnv where
  wipefs_ok : Bool := true
  sfdisk_ok : Bool := true
deriving DecidableEq

/-- The error kinds `prepare_disk` can terminate with: the two exception
classes it raises, plus `uncaughtException` for the `ZeroDivisionError` that
escapes it when an overprovision specification parses while the disk size is
zero (the `except ValueError` handler does not catch it). -/
inductive PrepError where
  | partitioningError
  | notEnoughSpace
  | uncaughtException
deriving DecidableEq

/-! ## Partition naming and GPT type selection (`architect/core/partition.py`) -/

/-- Constant defined at the top of `partition.py` with comment `5% for SSDs`.
It is referenced nowhere else in the repository. -/
def DEFAULT_SSD_OVERPROVISION : ℕ := 5

/-- Minimum Windows partition size in GiB. -/
def MIN_WINDOWS_SIZE_GIB : ℕ := 21

/-- Size of the Windows recovery partition in MiB. -/
def WINDOWS_RECOVERY_SIZE_MIB : ℕ := 750

/-- Mirrors `get_partition_device_name(disk, partition_number)`. -/
def get_partition_device_name (disk : String) (partition_number : ℕ) : String :=
  if strContains (strToLower disk) "nvme" then
    disk ++ "p" ++ toString partition_number
  else
    disk ++ toString partition_number

/-- GPT type used for the system partition whenever encryption is requested. -/
def LUKS_PARTITION_TYPE : String := "CA7D7CCB-63ED-4C53-861C-1742536059CC"

/-- Fallback GPT type for an unrecognized architecture. -/
def GENERIC_LINUX_TYPE : String := "0FC63DAF-8483-4772-8E79-3D69D8477DE4"

/-- The `arch_partition_types` table of `get_architecture_specific_partition_type`. -/
def arch_partition_types : List (String × String) :=
  [ ("x86_64", "4F68BCE3-E8CD-4DB1-96E7-FBCAF984B709")
  , ("arm64", "B921B045-1DF0-41C3-AF44-4C6F280D3FAE")
  , ("ia64", "993D8D3D-F80E-4225-855A-9DAF8ED7EA97")
  , ("arm", "69DAD710-2CE4-4E3C-B16C-21A1D49ABED3")
  , ("x86", "44479540-F297-41B2-9AF7-D131D5F0458A") ]

/-- Normalization of the detected machine string (the `else` branch of
`get_architecture_specific_partition_type`).  Note the source writes
`arch in ("aarch64")`, which in Python is a substring test against the
string `"aarch64"`, not tuple membership; the embedding reproduces that. -/
def normalize_detected_arch (machine : String) : String :=
  let arch := strToLower machine
  if arch = "x86_64" || arch = "amd64" then "x86_64"
  else if strContains "aarch64" arch then "arm64"
  else if arch = "i386" || arch = "i486" || arch = "i586" || arch = "i686" then "x86"
  else if strStartsWith arch "arm" then
    (if strContains arch "64" then "arm64" else "arm")
  else arch

/-- Mirrors `get_architecture_specific_partition_type(args)`.  The ambient
`platform.machine()` call is passed in as the `machine` parameter. -/
def get_architecture_specific_partition_type (args : Args) (machine : String) : String :=
  if args.hardware_encryption || args.software_encryption then
    LUKS_PARTITION_TYPE
  else
    let arch :=
      match args.target_arch with
      | some a => a
      | none => normalize_detected_arch machine
    (alookup arch_partition_types arch).getD GENERIC_LINUX_TYPE

/-! ## The planner (`prepare_disk`)

The sfdisk script assembled line by line in the source is modelled as a list
of `ScriptLine` values, one per `script_lines.append` call, in the same
order.  Payloads record the decision-relevant content of each line; the
human-readable renderings (which pass the byte counts through the lossy
`bytes_to_human_readable` formatter) are not reproduced, the exact byte
counts are carried instead. -/

inductive ScriptLine where
  /-- `label: gpt` -/
  | labelGpt
  /-- `# Overprovisioning: ...` (appended whenever the specification parsed). -/
  | overprovComment (size : ℤ)
  /-- `# Dual-boot configuration with Windows` -/
  | dualBootComment
  /-- `size=550MiB, type=U, attrs=RequiredPartition, name="EFI System"` -/
  | efiPart
  /-- `# Windows partitions` -/
  | windowsComment
  /-- `size=16MiB, type=..., name="Microsoft reserved"` -/
  | msrPart
  /-- `size={args.windows}, type=..., name="Windows"` (the raw user spec). -/
  | windowsPart (spec : SizeSpec)
  /-- `size=750MiB, type=..., attrs=RequiredPartition,63, name="Windows Recovery"` -/
  | recoveryPart
  /-- `# Linux partitions` -/
  | linuxComment
  /-- `size=1GiB, type=L, name="Linux boot"` -/
  | bootPart
  /-- `size={remainder}, type={ptype}, name="Linux root"` (overprovisioning
  path: explicit remainder, leaving the reserved tail unallocated). -/
  | systemPartExplicit (size : ℤ) (ptype : String)
  /-- `size=+, type={ptype}, name="Linux root"` (fill sentinel). -/
  | systemPartFill (ptype : String)
deriving DecidableEq

/-- Result of a successful `prepare_disk` run: the sfdisk script it applied
and the role-to-device-path table it returns. -/
structure PrepResult where
  script : List ScriptLine
  partitions : List (String × String)
deriving DecidableEq

/-- The overprovisioning calculation at the top of `prepare_disk` (lines
128-136): `None` when the argument is absent or fails to parse (the
`ValueError` is caught and only a warning logged); a parsed size otherwise.
When the parse succeeds the source divides by `disk_info["size_bytes"]` to
log a percentage, so a zero-sized disk raises `ZeroDivisionError`, which the
`except ValueError` handler does not catch: that escape is `.error`. -/
def overprovision_calc (dinfo : DiskInfo) (args : Args) : Except PrepError (Option ℤ) :=
  match args.overprovision with
  | none => .ok none
  | some spec =>
    match parse_size_spec spec (dinfo.size_bytes : ℤ) with
    | .error _ => .ok none
    | .ok n => if dinfo.size_bytes = 0 then .error .uncaughtException else .ok (some n)

/-- Python truthiness of `overprovision_size` (an `int` or `None`): used by
the source at lines 140, 203 and 211, so a parsed size of exactly 0 behaves
like no overprovisioning. -/
def opTruthy (op : Option ℤ) : Bool :=
  match op with
  | none => false
  | some n => decide (n ≠ 0)

/-- `available_size` after the overprovisioning subtraction (lines 138-141). -/
def availableAfterOverprovision (sizeBytes : ℕ) (op : Option ℤ) : ℤ :=
  if opTruthy op then (sizeBytes : ℤ) - (op.getD 0) else (sizeBytes : ℤ)

/-- 16 MiB Microsoft reserved partition. -/
def msr_size : ℤ := 16 * 1024 * 1024

/-- 750 MiB Windows recovery partition. -/
def recovery_size : ℤ := (WINDOWS_RECOVERY_SIZE_MIB : ℤ) * 1024 * 1024

/-- 550 MiB EFI system partition. -/
def efi_size : ℤ := 550 * 1024 * 1024

/-- 1 GiB Linux boot partition. -/
def boot_size : ℤ := 1024 * 1024 * 1024

/-- The role-to-device-path mapping built at the end of `prepare_disk`
(lines 242-255). -/
def partitionsFor (disk : String) (windowsRequested : Bool) : List (String × String) :=
  if windowsRequested then
    [ ("efi", get_partition_device_name disk 1)
    , ("msr", get_partition_device_name disk 2)
    , ("windows", get_partition_device_name disk 3)
    , ("recovery", get_partition_device_name disk 4)
    , ("boot", get_partition_device_name disk 5)
    , ("system", get_partition_device_name disk 6) ]
  else
    [ ("efi", get_partition_device_name disk 1)
    , ("boot", get_partition_device_name disk 2)
    , ("system", get_partition_device_name disk 3) ]

/-- The tail of `prepare_disk` after the Windows block (lines 176-259):
EFI reserve, Windows script lines, boot reserve, the remaining-space check,
the system partition line, and the sfdisk apply.  `available` is
`available_size` on entry to line 176 and `script` the lines built so far. -/
def prepare_disk_rest (disk : String) (args : Args) (env : ExecEnv) (machine : String)
    (op : Option ℤ) (available : ℤ) (script : List ScriptLine) :
    Except PrepError PrepResult :=
  let available2 := available - efi_size
  let script2 := script ++ [.efiPart]
  let script3 := script2 ++
    (match args.windows with
     | some w => [.windowsComment, .msrPart, .windowsPart w, .recoveryPart]
     | none => [])
  let ptype := get_architecture_specific_partition_type args machine
  let available3 := available2 - boot_size
  if available3 ≤ 0 then .error .notEnoughSpace
  else
    let script4 := script3 ++ [.linuxComment, .bootPart]
    let script5 := script4 ++
      (if opTruthy op then [.systemPartExplicit available3 ptype]
       else [.systemPartFill ptype])
    if env.sfdisk_ok then .ok ⟨script5, partitionsFor disk args.windows.isSome⟩
    else .error .partitioningError

/-- Mirrors `prepare_disk(disk, disk_info, args, cmd_runner)`.  The ambient
`platform.machine()` used for GPT type selection is the `machine` parameter;
`env` records whether the destructive external commands succeed.  The float
comparison `windows_gib < MIN_WINDOWS_SIZE_GIB` of line 150 is modelled
exactly as `windows_bytes < 21 * 2^30` (the two never disagree, because the
double-precision quotient of an integer by `2^30` is more than half an ulp
away from 21 unless the quotient is exact). -/
def prepare_disk (disk : String) (dinfo : DiskInfo) (args : Args) (env : ExecEnv)
    (machine : String) : Except PrepError PrepResult :=
  if env.wipefs_ok then
    match overprovision_calc dinfo args with
    | .error e => .error e
    | .ok op =>
      let script1 : List ScriptLine :=
        [.labelGpt] ++ (match op with | some n => [.overprovComment n] | none => [])
      let available1 := availableAfterOverprovision dinfo.size_bytes op
      match args.windows with
      | some wspec =>
        match parse_size_spec wspec available1 with
        | .error _ => .error .partitioningError
        | .ok windows_bytes =>
          if windows_bytes < (MIN_WINDOWS_SIZE_GIB : ℤ) * 2 ^ 30 then
            .error .notEnoughSpace
          else
            let windows_total := windows_bytes + msr_size + recovery_size
            if available1 < windows_total then .error .notEnoughSpace
            else
              prepare_disk_rest disk args env machine op (available1 - windows_total)
                (script1 ++ [.dualBootComment])
      | none => prepare_disk_rest disk args env machine op available1 script1
  else .error .partitioningError

/-! ## Encryption binder (`architect/core/encryption.py`, `setup_encryption`)

The embedding returns the sequence of cryptsetup command argument vectors
issued through `run_cryptsetup_cmd` (the secret material fed on stdin is not
modelled) together with the updated partition table.  The function reads
`partitions["system"]`; every caller passes a table produced by
`prepare_disk`, which always contains that key, and the embedding defaults
to the empty string where Python would raise `KeyError`. -/
def setup_encryption (disk : String) (partitions : List (String × String)) (args : Args) :
    List (List String) × List (String × String) :=
  let system_partition := (alookup partitions "system").getD ""
  let hw_only := args.hardware_encryption && !args.software_encryption
  let hw_and_sw := args.hardware_encryption && args.software_encryption
  let sw_only := !args.hardware_encryption && args.software_encryption
  let luks_name := "luks-root"
  let luks_device := "/dev/mapper/" ++ luks_name
  let formatCmds : List (List String) :=
    if hw_only then
      [["cryptsetup", "luksFormat", "--type", "luks2", "--hw-opal-only", disk]]
    else if hw_and_sw then
      [[ "cryptsetup", "luksFormat", "--type", "luks2", "--hw-opal"
       , "--cipher", "aes-xts-plain64", "--key-size", "512"
       , "--hash", "sha512", "--pbkdf", "argon2id", "--iter-time", "5000"
       , system_partition ]]
    else if sw_only then
      [[ "cryptsetup", "luksFormat", "--type", "luks2"
       , "--cipher", "aes-xts-plain64", "--key-size", "512"
       , "--hash", "sha512", "--pbkdf", "argon2id", "--iter-time", "5000"
       , system_partition ]]
    else []
  let openCmds : List (List String) :=
    if hw_only || hw_and_sw || sw_only then
      [["cryptsetup", "open", system_partition, luks_name]]
    else []
  let mapped :=
    if hw_only || hw_and_sw || sw_only then
      aset (aset partitions "system" luks_device) "system_crypt" system_partition
    else partitions
  (formatCmds ++ openCmds, mapped)

/-! ## Filesystem provisioner (`architect/core/filesystem.py`) -/

/-- The `subvolumes` list of `create_btrfs_subvolumes` (lines 150-162),
in source order. -/
def btrfs_subvolumes : List String :=
  ["@", "@boot", "@home", "@opt", "@root", "@srv", "@tmp", "@usr", "@var",
   "@var_log", "@var_tmp"]

/-- The `subvolume_paths` mapping returned by `create_btrfs_subvolumes`:
one `btrfs subvolume create` per entry of `btrfs_subvolumes`, each keyed by
the subvolume name at path `temp_dir/<name>`. -/
def create_btrfs_subvolumes (temp_dir : String) : List (String × String) :=
  btrfs_subvolumes.map (fun s => (s, temp_dir ++ "/" ++ s))

/-! ## Mount sequencer (`architect/core/mount.py`, `mount_filesystems`) -/

/-- One observable action of `mount_filesystems`: a directory creation or a
`mount -o options device path` invocation. -/
inductive MountEvent where
  | mkdirEv (path : String)
  | mountEv (device : String) (path : String) (options : String)
deriving DecidableEq

/-- Path concatenation of `pathlib.Path` as used by `mount_filesystems`. -/
def pathJoin (a b : String) : String := a ++ "/" ++ b

/-- The subvol option-string rewrite applied before each subvolume mount
(lines 232-236 and 261-265). -/
def subvolOptions (subvol options : String) : String :=
  if options = "defaults" then "subvol=" ++ subvol
  else "subvol=" ++ subvol ++ "," ++ options

/-- Step 2 directory list. -/
def first_level_dirs : List String :=
  ["boot", "home", "opt", "root", "srv", "tmp", "usr", "var"]

/-- Step 5 subvolume dictionary, in source (insertion) order. -/
def step5_subvolumes : List (String × String) :=
  [("@home", "/home"), ("@opt", "/opt"), ("@root", "/root"), ("@srv", "/srv"),
   ("@tmp", "/tmp"), ("@usr", "/usr"), ("@var", "/var")]

/-- Step 7 subvolume dictionary, in source (insertion) order. -/
def step7_subvolumes : List (String × String) :=
  [("@var_log", "/var/log"), ("@var_tmp", "/var/tmp")]

/-- Python `mountpoint.lstrip("/")`. -/
def lstripSlash (s : String) : String :=
  ⟨s.toList.dropWhile (fun c => c = '/')⟩

/-- Mirrors `mount_filesystems(partitions, mount_options, args, cmd_runner)`
as the ordered list of directory-creation and mount actions it performs.
`mount_options` is the option table (`determine_mount_options` always
populates every key the sequencer reads, so it is modelled as a total
function on mount points).  The `target` is `args.target`. -/
def mount_filesystems (partitions : List (String × String))
    (mount_options : String → String) (target : String) : List MountEvent :=
  let sys := (alookup partitions "system").getD ""
  let bootDev := (alookup partitions "boot").getD ""
  let efiDev := (alookup partitions "efi").getD ""
  [MountEvent.mkdirEv target]
  ++ [MountEvent.mountEv sys target (subvolOptions "@" (mount_options "/"))]
  ++ first_level_dirs.map (fun d => MountEvent.mkdirEv (pathJoin target d))
  ++ [MountEvent.mountEv bootDev (pathJoin target "boot") (mount_options "/boot")]
  ++ [ MountEvent.mkdirEv (pathJoin (pathJoin target "boot") "efi")
     , MountEvent.mountEv efiDev (pathJoin (pathJoin target "boot") "efi")
         (mount_options "/boot/efi") ]
  ++ step5_subvolumes.map (fun p =>
       MountEvent.mountEv sys (pathJoin target (lstripSlash p.2))
         (subvolOptions p.1 (mount_options p.2)))
  ++ [ MountEvent.mkdirEv (pathJoin (pathJoin target "var") "log")
     , MountEvent.mkdirEv (pathJoin (pathJoin target "var") "tmp") ]
  ++ step7_subvolumes.map (fun p =>
       MountEvent.mountEv sys (pathJoin target (lstripSlash p.2))
         (subvolOptions p.1 (mount_options p.2)))

/-- The mount targets of an event list, in order (directory creations
dropped). -/
def mountTargets (evs : List MountEvent) : List String :=
  evs.filterMap (fun e =>
    match e with
    | .mountEv _ p _ => some p
    | .mkdirEv _ => none)

/-! ## Encryption precondition check (`architect/utils/validation.py`,
`validate_encryption_requirements`)

The function runs `cryptsetup --version`, extracts a version with the regex
`(\d+)\.(\d+)\.(\d+)`, and raises `EncryptionError` when hardware encryption
is requested with a version below 2.6.  The whole check, including the
`raise`, sits inside `try: ... except Exception as e:` which logs two
warnings and returns.  The embedding separates the body of the `try` block
(`validate_version_check`) from the function itself so both behaviours are
visible.  The reported version string is the `version_str` parameter. -/

inductive EncError where
  | encryptionError
deriving DecidableEq

/-- Leading decimal-digit run of a character list, with the remainder. -/
def takeDigits (cs : List Char) : List Char × List Char :=
  (cs.takeWhile Char.isDigit, cs.dropWhile Char.isDigit)

/-- Numeric value of a digit run. -/
def digitsToNat (ds : List Char) : ℕ :=
  ds.foldl (fun a c => a * 10 + (c.toNat - 48)) 0

/-- Attempt to match `(\d+)\.(\d+)\.(\d+)` at the head of the list.  Greedy
digit runs followed by a literal dot coincide with the regex here, because
shortening a digit run leaves a digit, never a dot, as the next character. -/
def matchVersionAt (cs : List Char) : Option (ℕ × ℕ × ℕ) :=
  let p1 := takeDigits cs
  if p1.1.isEmpty then none
  else
    match p1.2 with
    | '.' :: r2 =>
      let p2 := takeDigits r2
      if p2.1.isEmpty then none
      else
        match p2.2 with
        | '.' :: r4 =>
          let p3 := takeDigits r4
          if p3.1.isEmpty then none
          else some (digitsToNat p1.1, digitsToNat p2.1, digitsToNat p3.1)
        | _ => none
    | _ => none

/-- `re.search` semantics for the version pattern: first match, scanning
start positions left to right. -/
def searchVersion : List Char → Option (ℕ × ℕ × ℕ)
  | [] => none
  | c :: rest =>
    match matchVersionAt (c :: rest) with
    | some r => some r
    | none => searchVersion rest

/-- The guard of line 144: encryption requested in either the legacy or the
new argument format. -/
def encryption_requested (args : Args) : Bool :=
  args.hardware_encryption || args.software_encryption ||
  args.hardware_encryption_psid.isSome ||
  args.hardware_encryption_admin.isSome ||
  args.hardware_encryption_pass.isSome

/-- The hardware-encryption condition of line 156. -/
def hardware_requested (args : Args) : Bool :=
  args.hardware_encryption || args.hardware_encryption_pass.isSome

/-- Body of the `try` block (lines 150-161): the version check as written,
with `.error` for the `raise EncryptionError(...)`. -/
def validate_version_check (args : Args) (version_str : String) : Except EncError Unit :=
  match searchVersion version_str.toList with
  | some (major, minor, _) =>
    if hardware_requested args = true ∧ (major < 2 ∨ (major = 2 ∧ minor < 6)) then
      .error .encryptionError
    else .ok ()
  | none => .ok ()

/-- Mirrors `validate_encryption_requirements(args, cmd_runner)`: the
`except Exception` handler catches the `EncryptionError` raised inside the
`try` block (EncryptionError derives from Exception), logs warnings, and the
function returns normally. -/
def validate_encryption_requirements (args : Args) (version_str : String) :
    Except EncError Unit :=
  if encryption_requested args then
    match validate_version_check args version_str with
    | .ok _ => .ok ()
    | .error _ => .ok ()
  else .ok ()

/-! ## Simulated identity memo (`architect/utils/command.py`,
`_handle_blkid_output`)

The command runner in simulation mode keeps `simulated_uuids` and
`simulated_partuuids` dicts; a UUID or PARTUUID query inserts a fresh
`uuid.uuid4()` value on first sight of a device path and returns the
memoized value afterwards.  Fresh `uuid.uuid4()` draws are modelled as a
fresh-token supply: the n-th value generated in a run is the token `n`
(collision-freedom of the random generator is an assumption of the model). -/

structure SimState where
  simulated_uuids : List (String × ℕ)
  simulated_partuuids : List (String × ℕ)
  fresh : ℕ
deriving DecidableEq

/-- State of a newly constructed `CommandRunner` (one run). -/
def initSimState : SimState := ⟨[], [], 0⟩

inductive UuidKind where
  | uuidQ
  | partuuidQ
deriving DecidableEq

/-- The memo table a kind of query reads. -/
def SimState.memo (st : SimState) (k : UuidKind) : List (String × ℕ) :=
  match k with
  | .uuidQ => st.simulated_uuids
  | .partuuidQ => st.simulated_partuuids

/-- Argument-vector analysis of `_handle_blkid_output` (lines 221-238):
requires a `-s` flag with a following parameter naming `UUID` or `PARTUUID`;
the device path is the last argument.  Any other shape leaves the simulated
stdout empty, modelled as `none`. -/
def parse_blkid_query (cmd : List String) : Option (UuidKind × String) :=
  match cmd.findIdx? (fun a => a = "-s") with
  | none => none
  | some i =>
    match cmd.get? (i + 1), cmd.getLast? with
    | some p, some dev =>
      if p = "UUID" then some (.uuidQ, dev)
      else if p = "PARTUUID" then some (.partuuidQ, dev)
      else none
    | _, _ => none

/-- Memo lookup-or-insert: return the stored token, or memoize the next
fresh one. -/
def memoFetch (m : List (String × ℕ)) (fresh : ℕ) (dev : String) :
    ℕ × List (String × ℕ) × ℕ :=
  match alookup m dev with
  | some v => (v, m, fresh)
  | none => (fresh, m ++ [(dev, fresh)], fresh + 1)

/-- One recognized blkid query against the simulated state. -/
def handle_blkid (q : UuidKind × String) (st : SimState) : ℕ × SimState :=
  match q.1 with
  | .uuidQ =>
    let r := memoFetch st.simulated_uuids st.fresh q.2
    (r.1, ⟨r.2.1, st.simulated_partuuids, r.2.2⟩)
  | .partuuidQ =>
    let r := memoFetch st.simulated_partuuids st.fresh q.2
    (r.1, ⟨st.simulated_uuids, r.2.1, r.2.2⟩)

/-- Run a sequence of blkid invocations through the simulated handler,
collecting the token each one reports (`none` for a command shape the
handler leaves unanswered). -/
def run_blkid_cmds (cmds : List (List String)) (st : SimState) :
    List (Option ℕ) × SimState :=
  match cmds with
  | [] => ([], st)
  | c :: rest =>
    match parse_blkid_query c with
    | none =>
      let r := run_blkid_cmds rest st
      (none :: r.1, r.2)
    | some q =>
      let s := handle_blkid q st
      let r := run_blkid_cmds rest s.2
      (some s.1 :: r.1, r.2)

/-- Well-formedness of one memo table relative to the fresh counter: every
stored token is older than the counter, and tokens determine device paths. -/
def memoWF (m : List (String × ℕ)) (c : ℕ) : Prop :=
  (∀ p ∈ m, p.2 < c) ∧ (∀ p ∈ m, ∀ q ∈ m, p.2 = q.2 → p.1 = q.1)

/-- Well-formedness of the simulated state. -/
def SimState.WF (st : SimState) : Prop :=
  memoWF st.simulated_uuids st.fresh ∧ memoWF st.simulated_partuuids st.fresh

/-- Decidable success test for `Except`. -/
def exceptIsOk {ε α : Type} : Except ε α → Bool
  | .ok _ => true
  | .error _ => false

/-! # Theorems -/

/-! ## Helper lemmas -/

theorem alookup_mem {α : Type} {m : List (String × α)} {k : String} {v : α}
    (h : alookup m k = some v) : (k, v) ∈ m := by
  induction m with
  | nil => simp [alookup] at h
  | cons p rest ih =>
    rw [alookup] at h
    split at h
    · rename_i hk
      cases h
      have hp : (k, p.2) = p := by cases p; simp_all
      rw [hp]
      exact List.mem_cons_self p rest
    · right
      exact ih h

theorem alookup_append_left {α : Type} {m : List (String × α)} {k : String} {v : α}
    (l : List (String × α)) (h : alookup m k = some v) :
    alookup (m ++ l) k = some v := by
  induction m with
  | nil => simp [alookup] at h
  | cons p rest ih =>
    rw [alookup] at h
    rw [List.cons_append, alookup]
    split at h
    · simp_all
    · simp_all

theorem alookup_append_self {α : Type} {m : List (String × α)} {k : String}
    (h : alookup m k = none) (v : α) : alookup (m ++ [(k, v)]) k = some v := by
  induction m with
  | nil => simp [alookup]
  | cons p rest ih =>
    rw [alookup] at h
    rw [List.cons_append, alookup]
    split at h
    · exact absurd h (by simp)
    · simp_all

theorem getLast?_append_singleton {α : Type} (l : List α) (a : α) :
    (l ++ [a]).getLast? = some a := by
  induction l with
  | nil => rfl
  | cons b rest ih =>
    rw [List.cons_append]
    rw [List.getLast?_cons]
    simp_all

theorem memoFetch_self (m : List (String × ℕ)) (fresh : ℕ) (dev : String) :
    alookup (memoFetch m fresh dev).2.1 dev = some (memoFetch m fresh dev).1 := by
  unfold memoFetch
  cases h : alookup m dev with
  | some v => simpa using h
  | none => simpa using alookup_append_self h fresh

theorem memoFetch_preserves {m : List (String × ℕ)} {fresh : ℕ} {dev k : String} {v : ℕ}
    (h : alookup m k = some v) : alookup (memoFetch m fresh dev).2.1 k = some v := by
  unfold memoFetch
  cases hm : alookup m dev with
  | some w => simpa using h
  | none => simpa using alookup_append_left _ h

theorem memoFetch_fresh_le (m : List (String × ℕ)) (fresh : ℕ) (dev : String) :
    fresh ≤ (memoFetch m fresh dev).2.2 := by
  unfold memoFetch
  cases hm : alookup m dev <;> simp

theorem memoWF_mono {m : List (String × ℕ)} {c c' : ℕ} (h : memoWF m c) (hc : c ≤ c') :
    memoWF m c' := by
  obtain ⟨h1, h2⟩ := h
  exact ⟨fun p hp => lt_of_lt_of_le (h1 p hp) hc, h2⟩

theorem memoFetch_WF {m : List (String × ℕ)} {fresh : ℕ} {dev : String}
    (h : memoWF m fresh) :
    memoWF (memoFetch m fresh dev).2.1 (memoFetch m fresh dev).2.2 := by
  obtain ⟨hlt, hinj⟩ := h
  unfold memoFetch
  cases hm : alookup m dev with
  | some v => simpa using ⟨hlt, hinj⟩
  | none =>
    simp only
    constructor
    · intro p hp
      rcases List.mem_append.mp hp with hp | hp
      · exact lt_of_lt_of_le (hlt p hp) (Nat.le_succ _)
      · simp at hp
        simp [hp]
    · intro p hp q hq hpq
      rcases List.mem_append.mp hp with hp | hp <;>
        rcases List.mem_append.mp hq with hq | hq
      · exact hinj p hp q hq hpq
      · simp at hq
        subst hq
        have := hlt p hp
        rw [hpq] at this
        simp at this
      · simp at hp
        subst hp
        have := hlt q hq
        rw [← hpq] at this
        simp at this
      · simp at hp hq
        subst hp
        subst hq
        rfl

theorem handle_blkid_self (q : UuidKind × String) (st : SimState) :
    alookup ((handle_blkid q st).2.memo q.1) q.2 = some (handle_blkid q st).1 := by
  unfold handle_blkid
  cases hq : q.1 <;> simp [SimState.memo, hq, memoFetch_self]

theorem handle_blkid_preserves {st : SimState} {k : UuidKind} {d : String} {v : ℕ}
    (q : UuidKind × String) (h : alookup (st.memo k) d = some v) :
    alookup ((handle_blkid q st).2.memo k) d = some v := by
  unfold handle_blkid
  cases hq : q.1 <;> cases hk : k <;>
    simp_all [SimState.memo, memoFetch_preserves]

theorem handle_blkid_WF {st : SimState} (q : UuidKind × String) (h : st.WF) :
    (handle_blkid q st).2.WF := by
  obtain ⟨h1, h2⟩ := h
  unfold handle_blkid
  cases hq : q.1 <;>
    simp only [SimState.WF, SimState.memo] <;>
    exact ⟨by first
            | exact memoFetch_WF h1
            | exact memoWF_mono h1 (memoFetch_fresh_le _ _ _),
           by first
            | exact memoFetch_WF h2
            | exact memoWF_mono h2 (memoFetch_fresh_le _ _ _)⟩

theorem run_preserves {cmds : List (List String)} {st : SimState} {k : UuidKind}
    {d : String} {v : ℕ} (h : alookup (st.memo k) d = some v) :
    alookup ((run_blkid_cmds cmds st).2.memo k) d = some v := by
  induction cmds generalizing st with
  | nil => simpa [run_blkid_cmds] using h
  | cons c rest ih =>
    rw [run_blkid_cmds]
    cases hp : parse_blkid_query c with
    | none => simpa using ih h
    | some q => simpa using ih (handle_blkid_preserves q h)

theorem run_WF {cmds : List (List String)} {st : SimState} (h : st.WF) :
    (run_blkid_cmds cmds st).2.WF := by
  induction cmds generalizing st with
  | nil => simpa [run_blkid_cmds] using h
  | cons c rest ih =>
    rw [run_blkid_cmds]
    cases hp : parse_blkid_query c with
    | none => simpa using ih h
    | some q => simpa using ih (handle_blkid_WF q h)

theorem run_out_spec {cmds : List (List String)} (st : SimState) {i : ℕ}
    {c : List String} {k : UuidKind} {d : String}
    (h1 : cmds.get? i = some c) (h2 : parse_blkid_query c = some (k, d)) :
    ∃ v, (run_blkid_cmds cmds st).1.get? i = some (some v) ∧
      alookup ((run_blkid_cmds cmds st).2.memo k) d = some v := by
  induction cmds generalizing st i with
  | nil => simp at h1
  | cons c0 rest ih =>
    cases i with
    | zero =>
      simp at h1
      subst h1
      rw [run_blkid_cmds]
      cases hp : parse_blkid_query c0 with
      | none => rw [hp] at h2; cases h2
      | some q =>
        rw [hp] at h2
        cases h2
        refine ⟨(handle_blkid (k, d) st).1, by simp, ?_⟩
        simpa using run_preserves (handle_blkid_self (k, d) st)
    | succ i =>
      rw [List.get?_cons_succ] at h1
      rw [run_blkid_cmds]
      cases hp : parse_blkid_query c0 with
      | none => simpa using ih st h1
      | some q => simpa using ih (handle_blkid q st).2 h1

theorem prepare_disk_rest_ok_partitions {disk : String} {args : Args} {env : ExecEnv}
    {machine : String} {op : Option ℤ} {available : ℤ} {script : List ScriptLine}
    {r : PrepResult}
    (h : prepare_disk_rest disk args env machine op available script = .ok r) :
    r.partitions = partitionsFor disk args.windows.isSome := by
  simp only [prepare_disk_rest] at h
  split at h
  · cases h
  · split at h
    · cases h
      rfl
    · cases h

theorem prepare_disk_rest_ok_script {disk : String} {args : Args} {env : ExecEnv}
    {machine : String} {op : Option ℤ} {available : ℤ} {script : List ScriptLine}
    {r : PrepResult}
    (h : prepare_disk_rest disk args env machine op available script = .ok r) :
    r.script = script ++ [.efiPart] ++
      (match args.windows with
       | some w => [.windowsComment, .msrPart, .windowsPart w, .recoveryPart]
       | none => []) ++ [.linuxComment, .bootPart] ++
      (if opTruthy op then
        [.systemPartExplicit (available - efi_size - boot_size)
          (get_architecture_specific_partition_type args machine)]
       else
        [.systemPartFill (get_architecture_specific_partition_type args machine)]) := by
  simp only [prepare_disk_rest] at h
  split at h
  · cases h
  · split at h
    · cases h
      rfl
    · cases h

theorem prepare_disk_ok_elim {disk : String} {dinfo : DiskInfo} {args : Args}
    {env : ExecEnv} {machine : String} {r : PrepResult}
    (h : prepare_disk disk dinfo args env machine = .ok r) :
    ∃ op available script, overprovision_calc dinfo args = .ok op ∧
      prepare_disk_rest disk args env machine op available script = .ok r := by
  simp only [prepare_disk] at h
  split at h
  · split at h
    · cases h
    · rename_i op heq
      split at h
      · split at h
        · cases h
        · split at h
          · cases h
          · split at h
            · cases h
            · exact ⟨op, _, _, heq, h⟩
      · exact ⟨op, _, _, heq, h⟩
  · cases h

/-! ## Claim theorems -/

/-- C1: the pre-flight version gate never raises.  The source intends to
raise EncryptionError when hardware encryption is requested with a cryptsetup
version below 2.6.0 (the body of the try block does reach the raise, second
conjunct), but the surrounding `except Exception` handler swallows the
exception, so `validate_encryption_requirements` returns normally for every
argument set and every reported version string (first conjunct) and the run
proceeds to the destructive steps. -/
theorem validate_encryption_never_raises :
    (∀ args version_str,
      validate_encryption_requirements args version_str = .ok ()) ∧
    validate_version_check { hardware_encryption := true } "cryptsetup 2.5.0" =
      .error .encryptionError := by
  constructor
  · intro args version_str
    unfold validate_encryption_requirements
    split
    · split <;> rfl
    · rfl
  · rfl

/-- C2 counterexample: a 500 GiB non-rotational disk with no explicit
overprovision request.  The resulting script has no overprovisioning
reservation and gives the system partition the fill sentinel (all remaining
space), refuting the claimed default 5 percent reserve on non-rotational
disks; the DEFAULT_SSD_OVERPROVISION constant is never consulted. -/
theorem ssd_without_overprovision_request_gets_no_reserve :
    prepare_disk "/dev/sda" ⟨500 * 2 ^ 30, false, false, true, 8, "SSD"⟩ {} {}
        "x86_64" =
      .ok ⟨[.labelGpt, .efiPart, .linuxComment, .bootPart,
            .systemPartFill "4F68BCE3-E8CD-4DB1-96E7-FBCAF984B709"],
           [("efi", "/dev/sda1"), ("boot", "/dev/sda2"), ("system", "/dev/sda3")]⟩ :=
  rfl

/-- C2 amended: an overprovision reserve is subtracted only when the request
gives an explicit size or percent; when none is given, no reserve is
subtracted on any disk, rotational or not (the disk kind is not consulted),
and any successful plan ends with the fill-sentinel system partition line. -/
theorem no_overprovision_request_no_reserve :
    ∀ disk dinfo args env machine, args.overprovision = none →
      overprovision_calc dinfo args = .ok none ∧
      availableAfterOverprovision dinfo.size_bytes none = (dinfo.size_bytes : ℤ) ∧
      ∀ r, prepare_disk disk dinfo args env machine = .ok r →
        r.script.getLast? =
          some (.systemPartFill
            (get_architecture_specific_partition_type args machine)) := by
  intro disk dinfo args env machine hov
  have hcalc : overprovision_calc dinfo args = .ok none := by
    unfold overprovision_calc
    rw [hov]
  refine ⟨hcalc, by simp [availableAfterOverprovision, opTruthy], ?_⟩
  intro r hr
  obtain ⟨op, available, script, hc, hrest⟩ := prepare_disk_ok_elim hr
  rw [hcalc] at hc
  injection hc with hc
  subst hc
  rw [prepare_disk_rest_ok_script hrest]
  rw [show opTruthy (none : Option ℤ) = false from rfl]
  rw [if_neg (by simp)]
  exact getLast?_append_singleton _ _

/-- C2 amended, instantiated: witness for the amended claim at a concrete
non-rotational disk with no overprovision request. -/
theorem no_overprovision_request_no_reserve_witness :
    overprovision_calc ⟨500 * 2 ^ 30, false, false, true, 8, "SSD"⟩ {} = .ok none ∧
    availableAfterOverprovision (500 * 2 ^ 30) none = ((500 * 2 ^ 30 : ℕ) : ℤ) ∧
    ∀ r, prepare_disk "/dev/sda" ⟨500 * 2 ^ 30, false, false, true, 8, "SSD"⟩ {} {}
        "x86_64" = .ok r →
      r.script.getLast? =
        some (.systemPartFill
          (get_architecture_specific_partition_type {} "x86_64")) :=
  no_overprovision_request_no_reserve "/dev/sda"
    ⟨500 * 2 ^ 30, false, false, true, 8, "SSD"⟩ {} {} "x86_64" rfl

/-- C3: evaluation of the encryption binder in its three modes on the table
produced for /dev/sda.  In hardware-only mode the luksFormat command targets
the whole-disk device /dev/sda while the subsequent open targets the system
partition /dev/sda3 (first conjunct) — contradicting both the functions own
description and the open step; in the combined and software-only modes the
format targets the system partition (second and third conjuncts), and in
every mode the table is rewritten with the mapped device under `system` and
the raw partition under `system_crypt` (first and fourth conjuncts). -/
theorem setup_encryption_mode_commands :
    setup_encryption "/dev/sda"
        [("efi", "/dev/sda1"), ("boot", "/dev/sda2"), ("system", "/dev/sda3")]
        { hardware_encryption := true } =
      ([["cryptsetup", "luksFormat", "--type", "luks2", "--hw-opal-only",
         "/dev/sda"],
        ["cryptsetup", "open", "/dev/sda3", "luks-root"]],
       [("efi", "/dev/sda1"), ("boot", "/dev/sda2"),
        ("system", "/dev/mapper/luks-root"), ("system_crypt", "/dev/sda3")]) ∧
    (setup_encryption "/dev/sda"
        [("efi", "/dev/sda1"), ("boot", "/dev/sda2"), ("system", "/dev/sda3")]
        { hardware_encryption := true, software_encryption := true }).1 =
      [["cryptsetup", "luksFormat", "--type", "luks2", "--hw-opal",
        "--cipher", "aes-xts-plain64", "--key-size", "512",
        "--hash", "sha512", "--pbkdf", "argon2id", "--iter-time", "5000",
        "/dev/sda3"],
       ["cryptsetup", "open", "/dev/sda3", "luks-root"]] ∧
    (setup_encryption "/dev/sda"
        [("efi", "/dev/sda1"), ("boot", "/dev/sda2"), ("system", "/dev/sda3")]
        { software_encryption := true }).1 =
      [["cryptsetup", "luksFormat", "--type", "luks2",
        "--cipher", "aes-xts-plain64", "--key-size", "512",
        "--hash", "sha512", "--pbkdf", "argon2id", "--iter-time", "5000",
        "/dev/sda3"],
       ["cryptsetup", "open", "/dev/sda3", "luks-root"]] ∧
    (setup_encryption "/dev/sda"
        [("efi", "/dev/sda1"), ("boot", "/dev/sda2"), ("system", "/dev/sda3")]
        { software_encryption := true }).2 =
      [("efi", "/dev/sda1"), ("boot", "/dev/sda2"),
       ("system", "/dev/mapper/luks-root"), ("system_crypt", "/dev/sda3")] :=
  ⟨rfl, rfl, rfl, rfl⟩

/-- C4 counterexample: the subvolume @boot is among the subvolumes the
creation operation creates, contrary to the claim that it is not. -/
theorem boot_subvolume_is_created :
    "@boot" ∈ btrfs_subvolumes ∧
    alookup (create_btrfs_subvolumes "/tmp/architect-sim-mount") "@boot" =
      some "/tmp/architect-sim-mount/@boot" :=
  ⟨by decide, rfl⟩

/-- C4 amended: the subvolume-creation operation creates exactly the fixed
named set @, @boot, @home, @opt, @root, @srv, @tmp, @usr, @var, @var_log,
@var_tmp — including @boot (which the mount sequencer never mounts, boot
living on its own partition). -/
theorem subvolume_names_exact :
    ∀ temp_dir, (create_btrfs_subvolumes temp_dir).map Prod.fst =
      ["@", "@boot", "@home", "@opt", "@root", "@srv", "@tmp", "@usr", "@var",
       "@var_log", "@var_tmp"] :=
  fun _ => rfl

/-- C5: a Windows request parsing below 21 GiB fails with NotEnoughSpace, as
does a combined request (primary volume plus 16 MiB reserved plus 750 MiB
recovery) exceeding the space remaining after overprovisioning (first
conjunct); a request of exactly 21 GiB on a 500 GiB disk with ample
remaining space succeeds (second conjunct). -/
theorem windows_floor_and_space_checks :
    (∀ disk dinfo args env machine w n op,
      env.wipefs_ok = true →
      args.windows = some w →
      overprovision_calc dinfo args = .ok op →
      parse_size_spec w (availableAfterOverprovision dinfo.size_bytes op) = .ok n →
      (n < (MIN_WINDOWS_SIZE_GIB : ℤ) * 2 ^ 30 ∨
        availableAfterOverprovision dinfo.size_bytes op < n + msr_size + recovery_size) →
      prepare_disk disk dinfo args env machine = .error .notEnoughSpace) ∧
    exceptIsOk (prepare_disk "/dev/sda" ⟨500 * 2 ^ 30, false, false, true, 8, "SSD"⟩
      { windows := some (.sized 21 1 (2 ^ 30)) } {} "x86_64") = true := by
  constructor
  · intro disk dinfo args env machine w n op henv hw hcalc hparse hfail
    simp only [prepare_disk, henv, hcalc, hw, hparse]
    simp only [if_true]
    split
    · rfl
    · rename_i hlt
      split
      · rfl
      · rename_i htot
        rcases hfail with hfail | hfail
        · exact absurd hfail hlt
        · exact absurd hfail htot
  · rfl

/-- C5 witness: a 20 GiB Windows request on a 500 GiB disk (no
overprovisioning) fails with NotEnoughSpace, by the first conjunct of the
claim theorem. -/
theorem windows_floor_and_space_checks_witness :
    prepare_disk "/dev/sda" ⟨500 * 2 ^ 30, false, false, true, 8, "SSD"⟩
      { windows := some (.sized 20 1 (2 ^ 30)) } {} "x86_64" =
      .error .notEnoughSpace :=
  windows_floor_and_space_checks.1 "/dev/sda"
    ⟨500 * 2 ^ 30, false, false, true, 8, "SSD"⟩
    { windows := some (.sized 20 1 (2 ^ 30)) } {} "x86_64"
    (.sized 20 1 (2 ^ 30)) (20 * 2 ^ 30) none rfl rfl rfl (by rfl)
    (Or.inl (by decide))

/-- C6: whenever any encryption is requested the system partition GPT type
is the LUKS identifier, irrespective of any architecture override (first
conjunct); with no encryption the type is chosen from the architecture
table, keyed by the explicit override when supplied and otherwise by the
normalized detected architecture, with the generic Linux-filesystem type as
fallback for keys outside the table (second conjunct). -/
theorem system_gpt_type_selection :
    ∀ args machine,
      ((args.hardware_encryption || args.software_encryption) = true →
        get_architecture_specific_partition_type args machine = LUKS_PARTITION_TYPE) ∧
      (args.hardware_encryption = false → args.software_encryption = false →
        ((∀ a, args.target_arch = some a →
            get_architecture_specific_partition_type args machine =
              (alookup arch_partition_types a).getD GENERIC_LINUX_TYPE) ∧
         (args.target_arch = none →
            get_architecture_specific_partition_type args machine =
              (alookup arch_partition_types (normalize_detected_arch machine)).getD
                GENERIC_LINUX_TYPE))) := by
  intro args machine
  constructor
  · intro h
    simp [get_architecture_specific_partition_type, h]
  · intro h1 h2
    constructor
    · intro a ha
      simp [get_architecture_specific_partition_type, h1, h2, ha]
    · intro ha
      simp [get_architecture_specific_partition_type, h1, h2, ha]

/-- C6 witness: concrete instantiations of the selection rule — hardware
encryption forces the LUKS type even under an arm64 override; without
encryption an arm64 override picks the arm64 type; without encryption or
override the detected machine aarch64 picks the arm64 type. -/
theorem system_gpt_type_selection_witness :
    get_architecture_specific_partition_type
        { hardware_encryption := true, target_arch := some "arm64" } "x86_64" =
      LUKS_PARTITION_TYPE ∧
    get_architecture_specific_partition_type { target_arch := some "arm64" }
        "x86_64" =
      (alookup arch_partition_types "arm64").getD GENERIC_LINUX_TYPE ∧
    get_architecture_specific_partition_type {} "aarch64" =
      (alookup arch_partition_types (normalize_detected_arch "aarch64")).getD
        GENERIC_LINUX_TYPE :=
  ⟨(system_gpt_type_selection
      { hardware_encryption := true, target_arch := some "arm64" } "x86_64").1 rfl,
   ((system_gpt_type_selection { target_arch := some "arm64" } "x86_64").2
      rfl rfl).1 "arm64" rfl,
   ((system_gpt_type_selection {} "aarch64").2 rfl rfl).2 rfl⟩

/-- C7: device path derivation appends the partition index directly, with a
p infix exactly when the (lowercased) base name contains nvme (first
conjunct, with the two spec examples as the second and third conjuncts);
and every successful plan assigns roles to indices by the fixed scheme —
efi=1, boot=2, system=3 without Windows; efi=1, msr=2, windows=3,
recovery=4, boot=5, system=6 with Windows (fourth conjunct). -/
theorem device_naming_and_role_indices :
    (∀ disk n,
      (strContains (strToLower disk) "nvme" = true →
        get_partition_device_name disk n = disk ++ "p" ++ toString n) ∧
      (strContains (strToLower disk) "nvme" = false →
        get_partition_device_name disk n = disk ++ toString n)) ∧
    get_partition_device_name "/dev/sda" 3 = "/dev/sda3" ∧
    get_partition_device_name "/dev/nvme0n1" 3 = "/dev/nvme0n1p3" ∧
    (∀ disk dinfo args env machine r,
      prepare_disk disk dinfo args env machine = .ok r →
      (args.windows.isSome = true →
        r.partitions =
          [("efi", get_partition_device_name disk 1),
           ("msr", get_partition_device_name disk 2),
           ("windows", get_partition_device_name disk 3),
           ("recovery", get_partition_device_name disk 4),
           ("boot", get_partition_device_name disk 5),
           ("system", get_partition_device_name disk 6)]) ∧
      (args.windows.isSome = false →
        r.partitions =
          [("efi", get_partition_device_name disk 1),
           ("boot", get_partition_device_name disk 2),
           ("system", get_partition_device_name disk 3)])) := by
  refine ⟨?_, rfl, rfl, ?_⟩
  · intro disk n
    constructor
    · intro h
      simp [get_partition_device_name, h]
    · intro h
      simp [get_partition_device_name, h]
  · intro disk dinfo args env machine r hr
    obtain ⟨op, available, script, hc, hrest⟩ := prepare_disk_ok_elim hr
    have hp := prepare_disk_rest_ok_partitions hrest
    constructor
    · intro hw
      rw [hp]
      simp [partitionsFor, hw]
    · intro hw
      rw [hp]
      simp [partitionsFor, hw]

/-- C7 witness: the naming rule applied at /dev/sda and /dev/nvme0n1 with
index 2, and the role table of a successful plan of a 500 GiB disk with a
64 GiB Windows request. -/
theorem device_naming_and_role_indices_witness :
    get_partition_device_name "/dev/sda" 2 = "/dev/sda2" ∧
    get_partition_device_name "/dev/nvme0n1" 2 = "/dev/nvme0n1p2" ∧
    ∀ r, prepare_disk "/dev/nvme0n1" ⟨500 * 2 ^ 30, false, true, true, 8, "NVME"⟩
        { windows := some (.sized 64 1 (2 ^ 30)) } {} "x86_64" = .ok r →
      r.partitions =
        [("efi", get_partition_device_name "/dev/nvme0n1" 1),
         ("msr", get_partition_device_name "/dev/nvme0n1" 2),
         ("windows", get_partition_device_name "/dev/nvme0n1" 3),
         ("recovery", get_partition_device_name "/dev/nvme0n1" 4),
         ("boot", get_partition_device_name "/dev/nvme0n1" 5),
         ("system", get_partition_device_name "/dev/nvme0n1" 6)] :=
  ⟨(device_naming_and_role_indices.1 "/dev/sda" 2).2 rfl,
   (device_naming_and_role_indices.1 "/dev/nvme0n1" 2).1 rfl,
   fun r hr =>
     (device_naming_and_role_indices.2.2.2 "/dev/nvme0n1"
       ⟨500 * 2 ^ 30, false, true, true, 8, "NVME"⟩
       { windows := some (.sized 64 1 (2 ^ 30)) } {} "x86_64" r hr).1 rfl⟩

/-- C8: the mount sequencer always issues its mounts in the fixed order —
root subvolume first, then boot, then boot/efi, then the top-level
subvolumes home, opt, root, srv, tmp, usr, var, then var/log and var/tmp
last.  In particular boot/efi (position 2) never precedes boot (position 1),
and var/log, var/tmp (positions 10, 11) never precede the var subvolume
mount (position 9). -/
theorem mount_order_fixed_topological :
    ∀ partitions mount_options target,
      mountTargets (mount_filesystems partitions mount_options target) =
        [target,
         pathJoin target "boot",
         pathJoin (pathJoin target "boot") "efi",
         pathJoin target "home", pathJoin target "opt", pathJoin target "root",
         pathJoin target "srv", pathJoin target "tmp", pathJoin target "usr",
         pathJoin target "var",
         pathJoin target "var/log", pathJoin target "var/tmp"] :=
  fun _ _ _ => rfl

/-- C9: within one simulated run (starting from the initial state), two
UUID or PARTUUID queries of the same kind against the same device path
report the identical token, and two queries of the same kind against
different device paths report different tokens. -/
theorem simulated_identity_memo :
    ∀ cmds i j ci cj ki kj di dj,
      cmds.get? i = some ci → parse_blkid_query ci = some (ki, di) →
      cmds.get? j = some cj → parse_blkid_query cj = some (kj, dj) →
      ((ki = kj → di = dj →
        (run_blkid_cmds cmds initSimState).1.get? i =
          (run_blkid_cmds cmds initSimState).1.get? j) ∧
       (ki = kj → di ≠ dj →
        (run_blkid_cmds cmds initSimState).1.get? i ≠
          (run_blkid_cmds cmds initSimState).1.get? j)) := by
  intro cmds i j ci cj ki kj di dj hi hpi hj hpj
  obtain ⟨v, hvi, hli⟩ := run_out_spec initSimState hi hpi
  obtain ⟨v', hvj, hlj⟩ := run_out_spec initSimState hj hpj
  constructor
  · intro hk hd
    subst hk
    subst hd
    rw [hli] at hlj
    injection hlj with hv
    rw [hvi, hvj, hv]
  · intro hk hd heq
    subst hk
    rw [hvi, hvj] at heq
    injection heq with heq
    injection heq with heq
    subst heq
    have hinit : SimState.WF initSimState :=
      ⟨⟨fun p hp => by simp [initSimState] at hp,
        fun p hp => by simp [initSimState] at hp⟩,
       ⟨fun p hp => by simp [initSimState] at hp,
        fun p hp => by simp [initSimState] at hp⟩⟩
    have hwf : (run_blkid_cmds cmds initSimState).2.WF := run_WF hinit
    have hmw : memoWF ((run_blkid_cmds cmds initSimState).2.memo ki)
        (run_blkid_cmds cmds initSimState).2.fresh := by
      cases ki
      · exact hwf.1
      · exact hwf.2
    exact hd (hmw.2 _ (alookup_mem hli) _ (alookup_mem hlj) rfl)

/-- C9 witness: a concrete run of three PARTUUID queries — the first and
third (same path) agree, the first and second (different paths) differ. -/
theorem simulated_identity_memo_witness :
    ((run_blkid_cmds
        [["blkid", "-s", "PARTUUID", "/dev/sda1"],
         ["blkid", "-s", "PARTUUID", "/dev/sda2"],
         ["blkid", "-s", "PARTUUID", "/dev/sda1"]] initSimState).1.get? 0 =
      (run_blkid_cmds
        [["blkid", "-s", "PARTUUID", "/dev/sda1"],
         ["blkid", "-s", "PARTUUID", "/dev/sda2"],
         ["blkid", "-s", "PARTUUID", "/dev/sda1"]] initSimState).1.get? 2) ∧
    ((run_blkid_cmds
        [["blkid", "-s", "PARTUUID", "/dev/sda1"],
         ["blkid", "-s", "PARTUUID", "/dev/sda2"],
         ["blkid", "-s", "PARTUUID", "/dev/sda1"]] initSimState).1.get? 0 ≠
      (run_blkid_cmds
        [["blkid", "-s", "PARTUUID", "/dev/sda1"],
         ["blkid", "-s", "PARTUUID", "/dev/sda2"],
         ["blkid", "-s", "PARTUUID", "/dev/sda1"]] initSimState).1.get? 1) :=
  ⟨(simulated_identity_memo
      [["blkid", "-s", "PARTUUID", "/dev/sda1"],
       ["blkid", "-s", "PARTUUID", "/dev/sda2"],
       ["blkid", "-s", "PARTUUID", "/dev/sda1"]] 0 2
      ["blkid", "-s", "PARTUUID", "/dev/sda1"]
      ["blkid", "-s", "PARTUUID", "/dev/sda1"]
      .partuuidQ .partuuidQ "/dev/sda1" "/dev/sda1"
      rfl (by rfl) rfl (by rfl)).1 rfl rfl,
   (simulated_identity_memo
      [["blkid", "-s", "PARTUUID", "/dev/sda1"],
       ["blkid", "-s", "PARTUUID", "/dev/sda2"],
       ["blkid", "-s", "PARTUUID", "/dev/sda1"]] 0 1
      ["blkid", "-s", "PARTUUID", "/dev/sda1"]
      ["blkid", "-s", "PARTUUID", "/dev/sda2"]
      .partuuidQ .partuuidQ "/dev/sda1" "/dev/sda2"
      rfl (by rfl) rfl (by rfl)).2 rfl (by decide)⟩

/-- C10: an overprovision specification that fails to parse does not abort
planning — the run proceeds exactly as if no overprovision had been
requested (first conjunct, full result equality, hence no reserve and the
fill-sentinel system partition); an unparseable Windows specification
aborts planning with PartitioningError (second conjunct; the
overprovisioning hypothesis excludes the unrelated zero-size-disk
division-by-zero escape). -/
theorem overprovision_error_ignored_windows_error_fatal :
    (∀ disk dinfo args env machine,
      args.overprovision = some .invalid →
      prepare_disk disk dinfo args env machine =
        prepare_disk disk dinfo { args with overprovision := none } env machine) ∧
    (∀ disk dinfo args env machine op,
      overprovision_calc dinfo args = .ok op →
      args.windows = some .invalid →
      prepare_disk disk dinfo args env machine = .error .partitioningError) := by
  constructor
  · intro disk dinfo args env machine hov
    obtain ⟨o, w, he, hs, p1, p2, p3, ta, hd, tg⟩ := args
    simp only at hov
    subst hov
    rfl
  · intro disk dinfo args env machine op hcalc hw
    simp only [prepare_disk, hcalc, hw, parse_size_spec]
    split <;> rfl

/-- C10 witness: on a 500 GiB disk, an invalid overprovision specification
yields the same plan as no overprovision request, and an invalid Windows
specification yields PartitioningError. -/
theorem overprovision_error_ignored_windows_error_fatal_witness :
    prepare_disk "/dev/sda" ⟨500 * 2 ^ 30, false, false, true, 8, "SSD"⟩
        { overprovision := some .invalid } {} "x86_64" =
      prepare_disk "/dev/sda" ⟨500 * 2 ^ 30, false, false, true, 8, "SSD"⟩ {} {}
        "x86_64" ∧
    prepare_disk "/dev/sda" ⟨500 * 2 ^ 30, false, false, true, 8, "SSD"⟩
        { windows := some .invalid } {} "x86_64" = .error .partitioningError :=
  ⟨overprovision_error_ignored_windows_error_fatal.1 "/dev/sda"
     ⟨500 * 2 ^ 30, false, false, true, 8, "SSD"⟩
     { overprovision := some .invalid } {} "x86_64" rfl,
   overprovision_error_ignored_windows_error_fatal.2 "/dev/sda"
     ⟨500 * 2 ^ 30, false, false, true, 8, "SSD"⟩
     { windows := some .invalid } {} "x86_64" none rfl rfl⟩

end Architect
